import Mathlib

/-!
# BLE weather station (`BLE_WeatherStation/source/main.cpp`)

A shallow embedding of the application logic of the weather station firmware:
the `SMDevice` security event handlers, the sensor sampler
`updateSensorValues`, the status indicator `blinky` and the storage bootstrap
`create_filesystem`.

The BLE stack, the security manager, the event queue, the environmental
service and the block devices are objects of the SDK.  The embedding records
the requests the application sends to them, in order, and takes the results
they hand back as inputs.  Console output (`printf`) is not modelled.
-/

namespace WeatherStation

/-! ## SDK types named by the source -/

/-- Connection handles (`ble::connection_handle_t`) are opaque identifiers. -/
abbrev connection_handle_t := Nat

/-- The six bytes of a device address (`BLEProtocol::AddressBytes_t`). -/
abbrev AddressBytes_t := List Nat

/-- The enumeration `ble::link_encryption_t`.  The source compares against the
three enumerators listed first; `OTHER` stands for any further enumerator the
SDK declares. -/
inductive link_encryption_t where
  | NOT_ENCRYPTED
  | ENCRYPTED
  | ENCRYPTED_WITH_MITM
  | OTHER (code : Nat)
  deriving DecidableEq, Repr

/-- The enumeration `SecurityManager::SecurityCompletionStatus_t`; the source
only compares against `SEC_STATUS_SUCCESS`. -/
inductive SecurityCompletionStatus_t where
  | SEC_STATUS_SUCCESS
  | OTHER (code : Nat)
  deriving DecidableEq, Repr

/-- Disconnection reasons of `Gap`; the source only names
`REMOTE_USER_TERMINATED_CONNECTION`. -/
inductive DisconnectionReason_t where
  | REMOTE_USER_TERMINATED_CONNECTION
  | OTHER (code : Nat)
  deriving DecidableEq, Repr

/-- Security modes of the security manager; the source only names
`SECURITY_MODE_ENCRYPTION_NO_MITM`. -/
inductive SecurityMode_t where
  | SECURITY_MODE_ENCRYPTION_NO_MITM
  | OTHER (code : Nat)
  deriving DecidableEq, Repr

/-- The fields of `Gap::ConnectionCallbackParams_t` that `on_connect` reads. -/
structure ConnectionCallbackParams_t where
  handle : connection_handle_t
  peerAddr : AddressBytes_t
  deriving DecidableEq, Repr

/-- The fields of `Gap::DisconnectionCallbackParams_t`; `on_disconnect` reads
none of them. -/
structure DisconnectionCallbackParams_t where
  handle : connection_handle_t
  reason : DisconnectionReason_t
  deriving DecidableEq, Repr

/-! ## Requests sent to the SDK objects -/

/-- A callable posted on the event queue with `call` or `call_in`. -/
inductive QueuedCall where
  /-- The source's `_event_queue.call(&ble.gap(), &Gap::disconnect, handle, reason)`. -/
  | gap_disconnect (handle : connection_handle_t) (reason : DisconnectionReason_t)
  /-- The source's `eventQueue.call_in(ms, blinky)`. -/
  | call_in_blinky (ms : Nat)
  deriving DecidableEq, Repr

/-- A request made directly on `ble.securityManager()`. -/
inductive SecurityManagerCall where
  | acceptPairingRequest (handle : connection_handle_t)
  | setLinkSecurity (handle : connection_handle_t) (mode : SecurityMode_t)
  deriving DecidableEq, Repr

/-- A request made directly on `gap()`. -/
inductive GapCall where
  | startAdvertising
  deriving DecidableEq, Repr

/-! ## `SMDevice` -/

/-- The members of `SMDevice`.  The three reference members are represented by
what the device has done through them: the contents of the peer address
buffer, the calls posted on the event queue, and the requests made on the
security manager and on `Gap`, each in order. -/
structure SMDevice where
  _peer_address : AddressBytes_t
  _handle : connection_handle_t
  _is_connected : Bool
  _is_secure : Bool
  _event_queue : List QueuedCall
  securityManager : List SecurityManagerCall
  gap : List GapCall
  deriving DecidableEq, Repr

/-- The constructor `SMDevice::SMDevice`: handle 0, not connected, not secure. -/
def SMDevice.ctor (peer_address : AddressBytes_t) (event_queue : List QueuedCall) :
    SMDevice :=
  { _peer_address := peer_address
    _handle := 0
    _is_connected := false
    _is_secure := false
    _event_queue := event_queue
    securityManager := []
    gap := [] }

/-- The file-scope `peer_address`, a zero-initialised static. -/
def peer_address : AddressBytes_t := [0, 0, 0, 0, 0, 0]

/-- The device `ble_init` constructs: `new SMDevice(ble, eventQueue, peer_address)`,
seen with nothing posted on the queue yet. -/
def bleSecurityManager : SMDevice := SMDevice.ctor peer_address []

/-- The handler `SMDevice::pairingRequest`: accepts the pairing. -/
def SMDevice.pairingRequest (s : SMDevice) (connectionHandle : connection_handle_t) :
    SMDevice :=
  { s with securityManager :=
      s.securityManager ++ [SecurityManagerCall.acceptPairingRequest connectionHandle] }

/-- The handler `SMDevice::pairingResult`: both branches only print. -/
def SMDevice.pairingResult (s : SMDevice) (_connectionHandle : connection_handle_t)
    (result : SecurityCompletionStatus_t) : SMDevice :=
  if result = SecurityCompletionStatus_t.SEC_STATUS_SUCCESS then s else s

/-- The handler `SMDevice::linkEncryptionResult`. -/
def SMDevice.linkEncryptionResult (s : SMDevice) (_connectionHandle : connection_handle_t)
    (result : link_encryption_t) : SMDevice :=
  if result = link_encryption_t.ENCRYPTED then
    { s with _is_secure := true }
  else if result = link_encryption_t.ENCRYPTED_WITH_MITM then
    { s with _is_secure := true }
  else if result = link_encryption_t.NOT_ENCRYPTED then
    { s with
      _is_secure := false
      _event_queue := s._event_queue ++
        [QueuedCall.gap_disconnect s._handle
          DisconnectionReason_t.REMOTE_USER_TERMINATED_CONNECTION] }
  else s

/-- The predicate `SMDevice::connectionActive`. -/
def SMDevice.connectionActive (s : SMDevice) : Bool :=
  s._is_connected && s._is_secure

/-- The handler `SMDevice::on_connect`.  The error code `setLinkSecurity`
returns only selects a console message. -/
def SMDevice.on_connect (s : SMDevice) (connection_event : ConnectionCallbackParams_t) :
    SMDevice :=
  { s with
    _peer_address := connection_event.peerAddr
    _is_connected := true
    _is_secure := false
    _handle := connection_event.handle
    securityManager := s.securityManager ++
      [SecurityManagerCall.setLinkSecurity connection_event.handle
        SecurityMode_t.SECURITY_MODE_ENCRYPTION_NO_MITM] }

/-- The handler `SMDevice::on_disconnect`. -/
def SMDevice.on_disconnect (s : SMDevice) (_event : DisconnectionCallbackParams_t) :
    SMDevice :=
  { s with
    _is_connected := false
    _is_secure := false
    gap := s.gap ++ [GapCall.startAdvertising] }

/-- One delivery of an event handler of `SMDevice`, with its arguments. -/
inductive Event where
  | on_connect (connection_event : ConnectionCallbackParams_t)
  | on_disconnect (event : DisconnectionCallbackParams_t)
  | pairingRequest (connectionHandle : connection_handle_t)
  | pairingResult (connectionHandle : connection_handle_t)
      (result : SecurityCompletionStatus_t)
  | linkEncryptionResult (connectionHandle : connection_handle_t)
      (result : link_encryption_t)
  deriving DecidableEq, Repr

/-- Deliver one event to the device. -/
def SMDevice.deliver (s : SMDevice) : Event → SMDevice
  | Event.on_connect e => s.on_connect e
  | Event.on_disconnect e => s.on_disconnect e
  | Event.pairingRequest h => s.pairingRequest h
  | Event.pairingResult h r => s.pairingResult h r
  | Event.linkEncryptionResult h r => s.linkEncryptionResult h r

/-- Deliver a finite sequence of events, first to last. -/
def SMDevice.run (s : SMDevice) (events : List Event) : SMDevice :=
  events.foldl SMDevice.deliver s

/-- The report is one of the two that `linkEncryptionResult` takes as success. -/
def link_encryption_t.isEncrypted : link_encryption_t → Bool
  | link_encryption_t.ENCRYPTED => true
  | link_encryption_t.ENCRYPTED_WITH_MITM => true
  | _ => false

/-- Every encryption-success report of the sequence is delivered while the
device is connected. -/
def SMDevice.encryptedOnlyWhileConnected (s : SMDevice) : List Event → Bool
  | [] => true
  | Event.linkEncryptionResult h r :: rest =>
      (!r.isEncrypted || s._is_connected) &&
        SMDevice.encryptedOnlyWhileConnected (s.linkEncryptionResult h r) rest
  | e :: rest => SMDevice.encryptedOnlyWhileConnected (s.deliver e) rest

/-- One round of connect, encryption report, disconnect, with the arguments of
the three deliveries. -/
structure Cycle where
  connection_event : ConnectionCallbackParams_t
  connectionHandle : connection_handle_t
  result : link_encryption_t
  event : DisconnectionCallbackParams_t
  deriving DecidableEq, Repr

/-- The three events of a round, in order. -/
def Cycle.events (c : Cycle) : List Event :=
  [Event.on_connect c.connection_event,
   Event.linkEncryptionResult c.connectionHandle c.result,
   Event.on_disconnect c.event]

/-- The events of a sequence of rounds, one round after the other. -/
def cycleEvents : List Cycle → List Event
  | [] => []
  | c :: rest => c.events ++ cycleEvents rest

/-! ## The sensor sampler -/

/-- The configuration value `SENSOR_TYPE_FAKE`. -/
def SENSOR_TYPE_FAKE : Nat := 0

/-- The configuration value `SENSOR_TYPE_BME280`. -/
def SENSOR_TYPE_BME280 : Nat := 1

/-- The three function-local statics of `updateSensorValues`.  The source
keeps them as `double`; here they are exact rationals and the literal `0.1`
is `1/10`, the reading under which the properties of the simulated values are
stated.  The rounding of the `double` sums moves the call at which a value
wraps, so the call numbers and period lengths computed here belong to the
exact reading only. -/
structure SensorStatics where
  currentTemperature : ℚ
  currentHumidity : ℚ
  currentPressure : ℚ
  deriving DecidableEq

/-- The initialisers of the three statics. -/
def SensorStatics.initial : SensorStatics :=
  { currentTemperature := 20
    currentHumidity := 100100
    currentPressure := 15 }

/-- The conversions `(EnvironmentalService::TemperatureType_t)(x)`,
`(EnvironmentalService::HumidityType_t)(x)` and
`(EnvironmentalService::PressureType_t)(x)`.  The three integer types are
declared by the SDK header, so the conversions are parameters. -/
structure EnvironmentalServiceTypes where
  TemperatureType_t : ℚ → Int
  HumidityType_t : ℚ → Int
  PressureType_t : ℚ → Int

/-- The conversions that drop the fractional part (rounding toward zero), as a
C++ conversion from `double` to an integer type does for a value in range. -/
def EnvironmentalServiceTypes.truncating : EnvironmentalServiceTypes :=
  { TemperatureType_t := fun x => Int.tdiv x.num x.den
    HumidityType_t := fun x => Int.tdiv x.num x.den
    PressureType_t := fun x => Int.tdiv x.num x.den }

/-- A write to the characteristic store of the environmental service. -/
inductive StoreUpdate where
  | updateTemperature (value : Int)
  | updateHumidity (value : Int)
  | updatePressure (value : Int)
  deriving DecidableEq, Repr

/-- What `updateSensorValues` works on: its statics and the writes made so far
through `environmentalServicePtr`. -/
structure Sampler where
  statics : SensorStatics
  environmentalServicePtr : List StoreUpdate
  deriving DecidableEq

/-- The function `updateSensorValues`.  `MBED_CONF_APP_SENSOR_TYPE` is the
build configuration, `get_readings` what `bme280.get_readings` leaves in the
three statics it is given pointers to, and `dev` the device
`bleSecurityManager` points to. -/
def updateSensorValues (MBED_CONF_APP_SENSOR_TYPE : Nat)
    (get_readings : SensorStatics → SensorStatics) (types : EnvironmentalServiceTypes)
    (dev : SMDevice) (s : Sampler) : Sampler :=
  let v : SensorStatics :=
    if MBED_CONF_APP_SENSOR_TYPE = SENSOR_TYPE_BME280 then
      get_readings s.statics
    else if MBED_CONF_APP_SENSOR_TYPE = SENSOR_TYPE_FAKE then
      { currentTemperature :=
          if s.statics.currentTemperature + 1 / 10 > 30 then 20
          else s.statics.currentTemperature + 1 / 10
        currentPressure :=
          if s.statics.currentPressure + 1 / 10 > 100123 then 100100
          else s.statics.currentPressure + 1 / 10
        currentHumidity :=
          if s.statics.currentHumidity + 1 / 10 > 25 then 15
          else s.statics.currentHumidity + 1 / 10 }
    else s.statics
  if dev.connectionActive then
    { statics := v
      environmentalServicePtr := s.environmentalServicePtr ++
        [StoreUpdate.updateTemperature (types.TemperatureType_t v.currentTemperature),
         StoreUpdate.updateHumidity (types.HumidityType_t v.currentHumidity),
         StoreUpdate.updatePressure (types.PressureType_t v.currentPressure)] }
  else
    { statics := v
      environmentalServicePtr := s.environmentalServicePtr }

/-- The sampler after `n` calls of `updateSensorValues`, from the initial
statics and an empty store.  `get_readings k` and `dev k` are the driver's
answer and the device at call number `k` (counted from 0). -/
def samplerAfter (MBED_CONF_APP_SENSOR_TYPE : Nat)
    (get_readings : Nat → SensorStatics → SensorStatics) (types : EnvironmentalServiceTypes)
    (dev : Nat → SMDevice) : Nat → Sampler
  | 0 => { statics := SensorStatics.initial, environmentalServicePtr := [] }
  | n + 1 =>
      updateSensorValues MBED_CONF_APP_SENSOR_TYPE (get_readings n) types (dev n)
        (samplerAfter MBED_CONF_APP_SENSOR_TYPE get_readings types dev n)

/-! ## The status indicator -/

/-- The definition `#define LED_ON (1)`. -/
def LED_ON : Int := 1

/-- The definition `#define LED_OFF (!LED_ON)`. -/
def LED_OFF : Int := if LED_ON = 0 then 1 else 0

/-- The largest value of the target's 32-bit `int`. -/
def INT_MAX : Int := 2147483647

/-- The smallest value of the target's 32-bit `int`. -/
def INT_MIN : Int := -2147483648

/-- Two's complement wrap of an integer into the 32-bit `int` range, which is
what the increment of an `int` at `INT_MAX` yields on the target (the C++
standard leaves that increment undefined). -/
def wrapInt (x : Int) : Int := (x - INT_MIN) % 4294967296 + INT_MIN

/-- The table `idle_pattern` of `blinky`. -/
def idle_pattern : List Nat := [200, 1800]

/-- The table `connected_pattern` of `blinky`. -/
def connected_pattern : List Nat := [100, 900]

/-- The subscript `a[k]` with an `int` index: defined inside the array only. -/
def subscript (a : List Nat) (k : Int) : Option Nat :=
  if 0 ≤ k then a[k.toNat]? else none

/-- What `blinky` works on: the output `led1`, its static counter `i`, and the
calls it has posted on `eventQueue`. -/
structure Indicator where
  led1 : Int
  i : Int
  eventQueue : List QueuedCall
  deriving DecidableEq, Repr

/-- The state when `blinky` first runs: `led1(LED1, LED_OFF)` and `i = 1`. -/
def Indicator.initial : Indicator :=
  { led1 := LED_OFF, i := 1, eventQueue := [] }

/-- The index expression `i % 2` of `blinky`, with the truncating remainder of
C++, evaluated before the increment. -/
def Indicator.patternIndex (s : Indicator) : Int := Int.tmod s.i 2

/-- The function `blinky`; `dev` is the device `bleSecurityManager` points to.
There is no result when the subscript falls outside the two-element table. -/
def blinky (dev : SMDevice) (s : Indicator) : Option Indicator :=
  let led : Int := if s.led1 = 0 then 1 else 0
  if dev.connectionActive then
    (subscript connected_pattern s.patternIndex).map fun ms =>
      { led1 := led
        i := wrapInt (s.i + 1)
        eventQueue := s.eventQueue ++ [QueuedCall.call_in_blinky ms] }
  else
    (subscript idle_pattern s.patternIndex).map fun ms =>
      { led1 := led
        i := wrapInt (s.i + 1)
        eventQueue := s.eventQueue ++ [QueuedCall.call_in_blinky ms] }

/-- The indicator after `n` invocations of `blinky` from the initial state;
`dev k` is the device at invocation number `k` (counted from 0). -/
def blinkyAfter (dev : Nat → SMDevice) : Nat → Option Indicator
  | 0 => some Indicator.initial
  | n + 1 => (blinkyAfter dev n).bind (blinky (dev n))

/-! ## The storage bootstrap -/

/-- One step of a simulated value: wrap to `lo` when the next step would pass
`hi`, otherwise add a tenth.  Used to reason about the three statics. -/
def sawtooth (lo hi x : ℚ) : ℚ := if x + 1 / 10 > hi then lo else x + 1 / 10

/-- The value `x` sits on the grid of the band: `lo + j/10` with `j ≤ N`. -/
def OnGrid (lo : ℚ) (N : Nat) (x : ℚ) : Prop := ∃ j : Nat, j ≤ N ∧ x = lo + (j : ℚ) / 10

/-! ## Properties of `SMDevice` -/

theorem SMDevice.run_append (s : SMDevice) (xs ys : List Event) :
    s.run (xs ++ ys) = (s.run xs).run ys := by
  simp [SMDevice.run, List.foldl_append]

theorem SMDevice.deliver_secure_connected (s : SMDevice) (e : Event)
    (hinv : s._is_secure = true → s._is_connected = true)
    (hok : ∀ h r, e = Event.linkEncryptionResult h r →
      r.isEncrypted = true → s._is_connected = true) :
    (s.deliver e)._is_secure = true → (s.deliver e)._is_connected = true := by
  cases e with
  | on_connect c => intro _; rfl
  | on_disconnect d => intro h; simp [SMDevice.deliver, SMDevice.on_disconnect] at h
  | pairingRequest h => exact hinv
  | pairingResult h r =>
      simpa [SMDevice.deliver, SMDevice.pairingResult] using hinv
  | linkEncryptionResult h r =>
      cases r with
      | NOT_ENCRYPTED =>
          intro hs; simp [SMDevice.deliver, SMDevice.linkEncryptionResult] at hs
      | ENCRYPTED => intro _; exact hok h _ rfl rfl
      | ENCRYPTED_WITH_MITM => intro _; exact hok h _ rfl rfl
      | OTHER code =>
          simpa [SMDevice.deliver, SMDevice.linkEncryptionResult] using hinv

theorem SMDevice.run_secure_connected (events : List Event) :
    ∀ s : SMDevice, (s._is_secure = true → s._is_connected = true) →
      s.encryptedOnlyWhileConnected events = true →
      (s.run events)._is_secure = true → (s.run events)._is_connected = true := by
  induction events with
  | nil => intro s hinv _; simpa [SMDevice.run] using hinv
  | cons e rest ih =>
      intro s hinv hok
      have hstep : (s.deliver e)._is_secure = true → (s.deliver e)._is_connected = true := by
        apply SMDevice.deliver_secure_connected s e hinv
        intro h r he hr
        subst he
        simp only [SMDevice.encryptedOnlyWhileConnected, Bool.and_eq_true, Bool.or_eq_true,
          Bool.not_eq_true'] at hok
        rcases hok.1 with h1 | h1
        · rw [hr] at h1; cases h1
        · exact h1
      have hrest : (s.deliver e).encryptedOnlyWhileConnected rest = true := by
        cases e with
        | linkEncryptionResult h r =>
            simp only [SMDevice.encryptedOnlyWhileConnected, Bool.and_eq_true] at hok
            exact hok.2
        | on_connect c => simpa [SMDevice.encryptedOnlyWhileConnected] using hok
        | on_disconnect d => simpa [SMDevice.encryptedOnlyWhileConnected] using hok
        | pairingRequest h => simpa [SMDevice.encryptedOnlyWhileConnected] using hok
        | pairingResult h r => simpa [SMDevice.encryptedOnlyWhileConnected] using hok
      exact ih (s.deliver e) hstep hrest

theorem SMDevice.run_cycle_idle (c : Cycle) (s : SMDevice) :
    (s.run c.events)._is_connected = false ∧ (s.run c.events)._is_secure = false := by
  simp [SMDevice.run, Cycle.events, SMDevice.deliver, SMDevice.on_disconnect]

theorem SMDevice.run_cycles_idle (cycles : List Cycle) :
    ∀ s : SMDevice, s._is_connected = false → s._is_secure = false →
      (s.run (cycleEvents cycles))._is_connected = false ∧
        (s.run (cycleEvents cycles))._is_secure = false := by
  induction cycles with
  | nil => intro s h1 h2; exact ⟨h1, h2⟩
  | cons c rest ih =>
      intro s _ _
      rw [cycleEvents, SMDevice.run_append]
      exact ih _ (SMDevice.run_cycle_idle c s).1 (SMDevice.run_cycle_idle c s).2

/-- C1, as stated, fails: an encryption-success report delivered to the freshly
constructed device leaves it secure and not connected. -/
theorem C1_secure_while_disconnected :
    (bleSecurityManager.run
        [Event.linkEncryptionResult 0 link_encryption_t.ENCRYPTED])._is_secure = true ∧
      (bleSecurityManager.run
        [Event.linkEncryptionResult 0 link_encryption_t.ENCRYPTED])._is_connected = false := by
  decide

/-- C1, amended: in every state reached from the constructed device by a finite
sequence of the five event handlers in which every ENCRYPTED or
ENCRYPTED_WITH_MITM report is delivered while the device is connected,
`_is_secure = true` implies `_is_connected = true`. -/
theorem C1_secure_implies_connected (address : AddressBytes_t) (queue : List QueuedCall)
    (events : List Event)
    (htimed : (SMDevice.ctor address queue).encryptedOnlyWhileConnected events = true) :
    ((SMDevice.ctor address queue).run events)._is_secure = true →
      ((SMDevice.ctor address queue).run events)._is_connected = true :=
  SMDevice.run_secure_connected events (SMDevice.ctor address queue)
    (by intro h; simp [SMDevice.ctor] at h) htimed

/-- C1, amended, at a concrete sequence: connect, pairing, encryption success. -/
theorem C1_secure_implies_connected_witness :
    (bleSecurityManager.run
        [Event.on_connect ⟨7, [1, 2, 3, 4, 5, 6]⟩, Event.pairingRequest 7,
         Event.pairingResult 7 SecurityCompletionStatus_t.SEC_STATUS_SUCCESS,
         Event.linkEncryptionResult 7 link_encryption_t.ENCRYPTED])._is_secure = true ∧
      (bleSecurityManager.run
        [Event.on_connect ⟨7, [1, 2, 3, 4, 5, 6]⟩, Event.pairingRequest 7,
         Event.pairingResult 7 SecurityCompletionStatus_t.SEC_STATUS_SUCCESS,
         Event.linkEncryptionResult 7 link_encryption_t.ENCRYPTED])._is_connected = true :=
  ⟨by decide,
   C1_secure_implies_connected peer_address []
     [Event.on_connect ⟨7, [1, 2, 3, 4, 5, 6]⟩, Event.pairingRequest 7,
      Event.pairingResult 7 SecurityCompletionStatus_t.SEC_STATUS_SUCCESS,
      Event.linkEncryptionResult 7 link_encryption_t.ENCRYPTED]
     (by decide) (by decide)⟩

/-- C2: after any number of rounds of connect, encryption success, disconnect
from the constructed device, and through one more such round,
`connectionActive()` is false before `on_connect`, false after it, true after
the encryption-success report and false after `on_disconnect`. -/
theorem C2_connectionActive_through_cycle (address : AddressBytes_t)
    (queue : List QueuedCall) (cycles : List Cycle) (c : Cycle)
    (_hcycles : ∀ d ∈ cycles, d.result.isEncrypted = true)
    (hc : c.result.isEncrypted = true) :
    ((SMDevice.ctor address queue).run (cycleEvents cycles)).connectionActive = false ∧
    (((SMDevice.ctor address queue).run (cycleEvents cycles)).on_connect
        c.connection_event).connectionActive = false ∧
    ((((SMDevice.ctor address queue).run (cycleEvents cycles)).on_connect
        c.connection_event).linkEncryptionResult c.connectionHandle
          c.result).connectionActive = true ∧
    (((((SMDevice.ctor address queue).run (cycleEvents cycles)).on_connect
        c.connection_event).linkEncryptionResult c.connectionHandle
          c.result).on_disconnect c.event).connectionActive = false := by
  have hidle := SMDevice.run_cycles_idle cycles (SMDevice.ctor address queue) rfl rfl
  refine ⟨?_, ?_, ?_, ?_⟩
  · simp [SMDevice.connectionActive, hidle.1]
  · simp [SMDevice.connectionActive, SMDevice.on_connect]
  · cases hr : c.result with
    | NOT_ENCRYPTED => rw [hr] at hc; cases hc
    | ENCRYPTED =>
        simp [SMDevice.connectionActive, SMDevice.on_connect, SMDevice.linkEncryptionResult]
    | ENCRYPTED_WITH_MITM =>
        simp [SMDevice.connectionActive, SMDevice.on_connect, SMDevice.linkEncryptionResult]
    | OTHER code => rw [hr] at hc; cases hc
  · simp [SMDevice.connectionActive, SMDevice.on_disconnect]

/-- C2 at a concrete run: two earlier rounds, then a round with ENCRYPTED_WITH_MITM. -/
theorem C2_connectionActive_through_cycle_witness :
    (bleSecurityManager.run (cycleEvents
        [⟨⟨1, peer_address⟩, 1, link_encryption_t.ENCRYPTED,
            ⟨1, DisconnectionReason_t.REMOTE_USER_TERMINATED_CONNECTION⟩⟩,
         ⟨⟨2, peer_address⟩, 2, link_encryption_t.ENCRYPTED_WITH_MITM,
            ⟨2, DisconnectionReason_t.OTHER 8⟩⟩])).connectionActive = false ∧
    ((bleSecurityManager.run (cycleEvents
        [⟨⟨1, peer_address⟩, 1, link_encryption_t.ENCRYPTED,
            ⟨1, DisconnectionReason_t.REMOTE_USER_TERMINATED_CONNECTION⟩⟩,
         ⟨⟨2, peer_address⟩, 2, link_encryption_t.ENCRYPTED_WITH_MITM,
            ⟨2, DisconnectionReason_t.OTHER 8⟩⟩])).on_connect
        ⟨3, peer_address⟩).connectionActive = false ∧
    (((bleSecurityManager.run (cycleEvents
        [⟨⟨1, peer_address⟩, 1, link_encryption_t.ENCRYPTED,
            ⟨1, DisconnectionReason_t.REMOTE_USER_TERMINATED_CONNECTION⟩⟩,
         ⟨⟨2, peer_address⟩, 2, link_encryption_t.ENCRYPTED_WITH_MITM,
            ⟨2, DisconnectionReason_t.OTHER 8⟩⟩])).on_connect
        ⟨3, peer_address⟩).linkEncryptionResult 3
          link_encryption_t.ENCRYPTED_WITH_MITM).connectionActive = true ∧
    ((((bleSecurityManager.run (cycleEvents
        [⟨⟨1, peer_address⟩, 1, link_encryption_t.ENCRYPTED,
            ⟨1, DisconnectionReason_t.REMOTE_USER_TERMINATED_CONNECTION⟩⟩,
         ⟨⟨2, peer_address⟩, 2, link_encryption_t.ENCRYPTED_WITH_MITM,
            ⟨2, DisconnectionReason_t.OTHER 8⟩⟩])).on_connect
        ⟨3, peer_address⟩).linkEncryptionResult 3
          link_encryption_t.ENCRYPTED_WITH_MITM).on_disconnect
        ⟨3, DisconnectionReason_t.REMOTE_USER_TERMINATED_CONNECTION⟩).connectionActive
      = false :=
  C2_connectionActive_through_cycle peer_address []
    [⟨⟨1, peer_address⟩, 1, link_encryption_t.ENCRYPTED,
        ⟨1, DisconnectionReason_t.REMOTE_USER_TERMINATED_CONNECTION⟩⟩,
     ⟨⟨2, peer_address⟩, 2, link_encryption_t.ENCRYPTED_WITH_MITM,
        ⟨2, DisconnectionReason_t.OTHER 8⟩⟩]
    ⟨⟨3, peer_address⟩, 3, link_encryption_t.ENCRYPTED_WITH_MITM,
      ⟨3, DisconnectionReason_t.REMOTE_USER_TERMINATED_CONNECTION⟩⟩
    (by decide) (by decide)

/-- C3: for a connected device and any handle argument, a NOT_ENCRYPTED report
leaves `_is_secure = false`, appends exactly one `Gap::disconnect` request to
the event queue, makes no other request, and leaves `_is_connected` and
`_handle` as they were. -/
theorem C3_not_encrypted_one_disconnect (s : SMDevice) (connectionHandle : connection_handle_t)
    (_hconnected : s._is_connected = true) :
    (s.linkEncryptionResult connectionHandle link_encryption_t.NOT_ENCRYPTED)._is_secure
        = false ∧
    (s.linkEncryptionResult connectionHandle link_encryption_t.NOT_ENCRYPTED)._event_queue
        = s._event_queue ++ [QueuedCall.gap_disconnect s._handle
            DisconnectionReason_t.REMOTE_USER_TERMINATED_CONNECTION] ∧
    (s.linkEncryptionResult connectionHandle link_encryption_t.NOT_ENCRYPTED)._is_connected
        = s._is_connected ∧
    (s.linkEncryptionResult connectionHandle link_encryption_t.NOT_ENCRYPTED)._handle
        = s._handle ∧
    (s.linkEncryptionResult connectionHandle link_encryption_t.NOT_ENCRYPTED).gap = s.gap ∧
    (s.linkEncryptionResult connectionHandle link_encryption_t.NOT_ENCRYPTED).securityManager
        = s.securityManager := by
  simp [SMDevice.linkEncryptionResult]

/-- C3 at a concrete state: connected on handle 4 and secured, report for handle 4. -/
theorem C3_not_encrypted_one_disconnect_witness :
    (((bleSecurityManager.on_connect ⟨4, peer_address⟩).linkEncryptionResult 4
        link_encryption_t.ENCRYPTED).linkEncryptionResult 4
          link_encryption_t.NOT_ENCRYPTED)._is_secure = false ∧
    (((bleSecurityManager.on_connect ⟨4, peer_address⟩).linkEncryptionResult 4
        link_encryption_t.ENCRYPTED).linkEncryptionResult 4
          link_encryption_t.NOT_ENCRYPTED)._event_queue
      = [QueuedCall.gap_disconnect 4
          DisconnectionReason_t.REMOTE_USER_TERMINATED_CONNECTION] :=
  ⟨(C3_not_encrypted_one_disconnect
      ((bleSecurityManager.on_connect ⟨4, peer_address⟩).linkEncryptionResult 4
        link_encryption_t.ENCRYPTED) 4 (by decide)).1,
   by decide⟩

/-- C9, as stated, fails: connected on handle 5, a NOT_ENCRYPTED report
delivered for handle 7 posts a disconnect for handle 5 and none for handle 7. -/
theorem C9_disconnect_for_stored_handle :
    ((bleSecurityManager.on_connect ⟨5, peer_address⟩).linkEncryptionResult 7
        link_encryption_t.NOT_ENCRYPTED)._event_queue
      = [QueuedCall.gap_disconnect 5
          DisconnectionReason_t.REMOTE_USER_TERMINATED_CONNECTION] ∧
    QueuedCall.gap_disconnect 7 DisconnectionReason_t.REMOTE_USER_TERMINATED_CONNECTION ∉
      ((bleSecurityManager.on_connect ⟨5, peer_address⟩).linkEncryptionResult 7
        link_encryption_t.NOT_ENCRYPTED)._event_queue := by
  decide

/-- C9, amended: for every state and every handle argument `h`, a NOT_ENCRYPTED
report posts its disconnect request for the stored `_handle` (the handle the
last `on_connect` recorded), with reason REMOTE_USER_TERMINATED_CONNECTION;
the request is for `h` exactly when `h = _handle`. -/
theorem C9_disconnect_handle (s : SMDevice) (connectionHandle : connection_handle_t) :
    (s.linkEncryptionResult connectionHandle link_encryption_t.NOT_ENCRYPTED)._event_queue
        = s._event_queue ++ [QueuedCall.gap_disconnect s._handle
            DisconnectionReason_t.REMOTE_USER_TERMINATED_CONNECTION] ∧
    (∀ connection_event : ConnectionCallbackParams_t,
      ((s.on_connect connection_event).linkEncryptionResult connectionHandle
          link_encryption_t.NOT_ENCRYPTED)._event_queue
        = s._event_queue ++ [QueuedCall.gap_disconnect connection_event.handle
            DisconnectionReason_t.REMOTE_USER_TERMINATED_CONNECTION]) ∧
    ((s.linkEncryptionResult connectionHandle link_encryption_t.NOT_ENCRYPTED)._event_queue
        = s._event_queue ++ [QueuedCall.gap_disconnect connectionHandle
            DisconnectionReason_t.REMOTE_USER_TERMINATED_CONNECTION]
      ↔ connectionHandle = s._handle) := by
  refine ⟨by simp [SMDevice.linkEncryptionResult], ?_, ?_⟩
  · intro e
    simp [SMDevice.linkEncryptionResult, SMDevice.on_connect]
  · simp [SMDevice.linkEncryptionResult, eq_comm]

/-! ## Properties of `updateSensorValues` -/

theorem updateSensorValues_statics (cfg : Nat) (g : SensorStatics → SensorStatics)
    (types : EnvironmentalServiceTypes) (dev dev' : SMDevice) (s : Sampler) :
    (updateSensorValues cfg g types dev s).statics
      = (updateSensorValues cfg g types dev' s).statics := by
  unfold updateSensorValues
  by_cases h : dev.connectionActive = true <;> by_cases h' : dev'.connectionActive = true <;>
    simp [h, h']

/-- C4: one call of `updateSensorValues`, whatever the configuration and the
reading, appends `updateTemperature`, `updateHumidity`, `updatePressure` (once
each, with the values just read) to the store when `connectionActive()` holds
and leaves the store untouched when it does not; so the store is written
if and only if `_is_connected && _is_secure`. -/
theorem C4_store_written_iff_active (MBED_CONF_APP_SENSOR_TYPE : Nat)
    (get_readings : SensorStatics → SensorStatics) (types : EnvironmentalServiceTypes)
    (dev : SMDevice) (s : Sampler) :
    (updateSensorValues MBED_CONF_APP_SENSOR_TYPE get_readings types dev s).environmentalServicePtr
      = (if dev._is_connected && dev._is_secure then
          s.environmentalServicePtr ++
            [StoreUpdate.updateTemperature (types.TemperatureType_t
              (updateSensorValues MBED_CONF_APP_SENSOR_TYPE get_readings types dev
                s).statics.currentTemperature),
             StoreUpdate.updateHumidity (types.HumidityType_t
              (updateSensorValues MBED_CONF_APP_SENSOR_TYPE get_readings types dev
                s).statics.currentHumidity),
             StoreUpdate.updatePressure (types.PressureType_t
              (updateSensorValues MBED_CONF_APP_SENSOR_TYPE get_readings types dev
                s).statics.currentPressure)]
        else s.environmentalServicePtr) ∧
    ((updateSensorValues MBED_CONF_APP_SENSOR_TYPE get_readings types dev
          s).environmentalServicePtr ≠ s.environmentalServicePtr
      ↔ dev.connectionActive = true) ∧
    (dev.connectionActive = true ↔ (dev._is_connected = true ∧ dev._is_secure = true)) := by
  unfold updateSensorValues
  by_cases h : dev.connectionActive = true
  · have h2 : (dev._is_connected && dev._is_secure) = true := h
    simp [h, h2]
    simpa [SMDevice.connectionActive] using h
  · have h2 : ¬ (dev._is_connected && dev._is_secure) = true := h
    simp [h, h2]
    simpa [SMDevice.connectionActive] using h

/-! ## The simulated sensor -/

theorem fake_statics_succ (g : Nat → SensorStatics → SensorStatics)
    (types : EnvironmentalServiceTypes) (dev : Nat → SMDevice) (n : Nat) :
    (samplerAfter SENSOR_TYPE_FAKE g types dev (n + 1)).statics =
      { currentTemperature := sawtooth 20 30
          (samplerAfter SENSOR_TYPE_FAKE g types dev n).statics.currentTemperature
        currentPressure := sawtooth 100100 100123
          (samplerAfter SENSOR_TYPE_FAKE g types dev n).statics.currentPressure
        currentHumidity := sawtooth 15 25
          (samplerAfter SENSOR_TYPE_FAKE g types dev n).statics.currentHumidity } := by
  show (updateSensorValues SENSOR_TYPE_FAKE (g n) types (dev n) _).statics = _
  unfold updateSensorValues
  by_cases h : (dev n).connectionActive = true <;>
    simp [h, SENSOR_TYPE_FAKE, SENSOR_TYPE_BME280, sawtooth]

theorem sawtooth_le (lo hi x : ℚ) (h : lo ≤ hi) : sawtooth lo hi x ≤ hi := by
  unfold sawtooth
  split_ifs with hx
  · exact h
  · exact not_lt.mp hx

theorem le_sawtooth (b lo hi x : ℚ) (hlo : b ≤ lo) (hx : b ≤ x) : b ≤ sawtooth lo hi x := by
  unfold sawtooth
  split_ifs
  · exact hlo
  · linarith

theorem sawtooth_iterate_climb (lo hi : ℚ) :
    ∀ (k : Nat) (x : ℚ), x + (k : ℚ) / 10 ≤ hi →
      (sawtooth lo hi)^[k] x = x + (k : ℚ) / 10 := by
  intro k
  induction k with
  | zero => intro x _; simp
  | succ k ih =>
      intro x hx
      have hk : x + (k : ℚ) / 10 ≤ hi := by
        push_cast at hx
        linarith
      rw [Function.iterate_succ_apply', ih x hk]
      unfold sawtooth
      have hnot : ¬ (x + (k : ℚ) / 10 + 1 / 10 > hi) := by
        push_cast at hx
        intro hgt
        linarith
      rw [if_neg hnot]
      push_cast
      ring

theorem sawtooth_top (lo hi : ℚ) : sawtooth lo hi hi = lo := by
  unfold sawtooth
  rw [if_pos]
  linarith

theorem sawtooth_onGrid (lo : ℚ) (N : Nat) (x : ℚ) (hx : OnGrid lo N x) :
    OnGrid lo N (sawtooth lo (lo + (N : ℚ) / 10) x) := by
  obtain ⟨j, hj, rfl⟩ := hx
  by_cases hlt : j < N
  · refine ⟨j + 1, hlt, ?_⟩
    have h := sawtooth_iterate_climb lo (lo + (N : ℚ) / 10) 1 (lo + (j : ℚ) / 10) (by
      have : (j : ℚ) + 1 ≤ (N : ℚ) := by exact_mod_cast hlt
      push_cast
      linarith)
    rw [Function.iterate_one] at h
    rw [h]
    push_cast
    ring
  · have hjN : j = N := by omega
    subst hjN
    exact ⟨0, Nat.zero_le _, by rw [sawtooth_top]; simp⟩

theorem fake_temperature_onGrid (g : Nat → SensorStatics → SensorStatics)
    (types : EnvironmentalServiceTypes) (dev : Nat → SMDevice) (n : Nat) :
    OnGrid 20 100 (samplerAfter SENSOR_TYPE_FAKE g types dev n).statics.currentTemperature := by
  induction n with
  | zero => exact ⟨0, Nat.zero_le _, by simp [samplerAfter, SensorStatics.initial]⟩
  | succ n ih =>
      rw [fake_statics_succ]
      have h := sawtooth_onGrid 20 100 _ ih
      have e : (20 : ℚ) + ((100 : Nat) : ℚ) / 10 = 30 := by norm_num
      rw [e] at h
      exact h

theorem fake_humidity_onGrid (g : Nat → SensorStatics → SensorStatics)
    (types : EnvironmentalServiceTypes) (dev : Nat → SMDevice) (n : Nat) :
    OnGrid 15 100
      (samplerAfter SENSOR_TYPE_FAKE g types dev (n + 1)).statics.currentHumidity := by
  induction n with
  | zero =>
      refine ⟨0, Nat.zero_le _, ?_⟩
      rw [fake_statics_succ]
      simp only [samplerAfter, SensorStatics.initial, sawtooth]
      norm_num
  | succ n ih =>
      rw [fake_statics_succ]
      have h := sawtooth_onGrid 15 100 _ ih
      have e : (15 : ℚ) + ((100 : Nat) : ℚ) / 10 = 25 := by norm_num
      rw [e] at h
      exact h

theorem fake_pressure_ge (g : Nat → SensorStatics → SensorStatics)
    (types : EnvironmentalServiceTypes) (dev : Nat → SMDevice) (n : Nat) :
    (151 : ℚ) / 10 ≤
      (samplerAfter SENSOR_TYPE_FAKE g types dev (n + 1)).statics.currentPressure := by
  induction n with
  | zero =>
      rw [fake_statics_succ]
      simp only [samplerAfter, SensorStatics.initial, sawtooth]
      norm_num
  | succ n ih =>
      rw [fake_statics_succ]
      exact le_sawtooth _ _ _ _ (by norm_num) ih

/-- C5: with the simulated sensor and the step taken as 1/10, after the n-th
call of `updateSensorValues` (n ≥ 1) from the initial statics the temperature
lies in [20, 30], the humidity in [15, 25] and the pressure in [15, 100123]. -/
theorem C5_fake_values_bounded (get_readings : Nat → SensorStatics → SensorStatics)
    (types : EnvironmentalServiceTypes) (dev : Nat → SMDevice) (n : Nat) (hn : 1 ≤ n) :
    20 ≤ (samplerAfter SENSOR_TYPE_FAKE get_readings types dev n).statics.currentTemperature ∧
    (samplerAfter SENSOR_TYPE_FAKE get_readings types dev n).statics.currentTemperature ≤ 30 ∧
    15 ≤ (samplerAfter SENSOR_TYPE_FAKE get_readings types dev n).statics.currentHumidity ∧
    (samplerAfter SENSOR_TYPE_FAKE get_readings types dev n).statics.currentHumidity ≤ 25 ∧
    15 ≤ (samplerAfter SENSOR_TYPE_FAKE get_readings types dev n).statics.currentPressure ∧
    (samplerAfter SENSOR_TYPE_FAKE get_readings types dev n).statics.currentPressure
      ≤ 100123 := by
  obtain ⟨m, rfl⟩ : ∃ m, n = m + 1 := ⟨n - 1, by omega⟩
  have hT := fake_temperature_onGrid get_readings types dev (m + 1)
  have hH := fake_humidity_onGrid get_readings types dev m
  have hP := fake_pressure_ge get_readings types dev m
  obtain ⟨j, _, hj⟩ := hT
  obtain ⟨k, _, hk⟩ := hH
  have hj0 : (0 : ℚ) ≤ (j : ℚ) := Nat.cast_nonneg j
  have hk0 : (0 : ℚ) ≤ (k : ℚ) := Nat.cast_nonneg k
  refine ⟨by rw [hj]; linarith, ?_, by rw [hk]; linarith, ?_, by linarith, ?_⟩
  · rw [fake_statics_succ]; exact sawtooth_le _ _ _ (by norm_num)
  · rw [fake_statics_succ]; exact sawtooth_le _ _ _ (by norm_num)
  · rw [fake_statics_succ]; exact sawtooth_le _ _ _ (by norm_num)

/-- C5 at the first call, with the device never active. -/
theorem C5_fake_values_bounded_witness :
    1 ≤ 1 ∧
    20 ≤ (samplerAfter SENSOR_TYPE_FAKE (fun _ v => v) EnvironmentalServiceTypes.truncating
      (fun _ => bleSecurityManager) 1).statics.currentTemperature ∧
    (samplerAfter SENSOR_TYPE_FAKE (fun _ v => v) EnvironmentalServiceTypes.truncating
      (fun _ => bleSecurityManager) 1).statics.currentTemperature ≤ 30 ∧
    15 ≤ (samplerAfter SENSOR_TYPE_FAKE (fun _ v => v) EnvironmentalServiceTypes.truncating
      (fun _ => bleSecurityManager) 1).statics.currentHumidity ∧
    (samplerAfter SENSOR_TYPE_FAKE (fun _ v => v) EnvironmentalServiceTypes.truncating
      (fun _ => bleSecurityManager) 1).statics.currentHumidity ≤ 25 ∧
    15 ≤ (samplerAfter SENSOR_TYPE_FAKE (fun _ v => v) EnvironmentalServiceTypes.truncating
      (fun _ => bleSecurityManager) 1).statics.currentPressure ∧
    (samplerAfter SENSOR_TYPE_FAKE (fun _ v => v) EnvironmentalServiceTypes.truncating
      (fun _ => bleSecurityManager) 1).statics.currentPressure ≤ 100123 :=
  ⟨le_refl 1,
   C5_fake_values_bounded (fun _ v => v) EnvironmentalServiceTypes.truncating
     (fun _ => bleSecurityManager) 1 (le_refl 1)⟩

theorem blinkyAfter_succ (dev : Nat → SMDevice) (n : Nat) :
    blinkyAfter dev (n + 1) = (blinkyAfter dev n).bind (blinky (dev n)) := rfl

/-- While the counter is non-negative, `blinky` toggles the output, advances
the counter and posts one `call_in` whose delay is the entry `i % 2` of the
table chosen by `connectionActive()`. -/
theorem blinky_of_nonneg (dev : SMDevice) (s : Indicator) (h0 : 0 ≤ s.i) :
    blinky dev s = some
      { led1 := if s.led1 = 0 then 1 else 0
        i := wrapInt (s.i + 1)
        eventQueue := s.eventQueue ++ [QueuedCall.call_in_blinky
          (if s.i % 2 = 0 then (if dev.connectionActive then 100 else 200)
            else (if dev.connectionActive then 900 else 1800))] } := by
  have hmod : Int.tmod s.i 2 = s.i % 2 := Int.tmod_eq_emod h0 (by decide)
  unfold blinky Indicator.patternIndex
  rw [hmod]
  rcases Int.emod_two_eq s.i with h | h
  · by_cases ha : dev.connectionActive = true <;>
      simp [ha, h, subscript, connected_pattern, idle_pattern]
  · by_cases ha : dev.connectionActive = true <;>
      simp [ha, h, subscript, connected_pattern, idle_pattern]

theorem wrapInt_of_inRange (x : Int) (h0 : INT_MIN ≤ x) (h1 : x ≤ INT_MAX) : wrapInt x = x := by
  unfold wrapInt
  unfold INT_MIN at *
  unfold INT_MAX at h1
  omega

/-- The indicator through the invocations that keep the counter in range:
after `n ≤ INT_MAX - 1` invocations the counter is `n + 1` and the output is
`n % 2`. -/
theorem blinkyAfter_inRange (dev : Nat → SMDevice) (n : Nat) (hn : n ≤ 2147483646) :
    ∃ st, blinkyAfter dev n = some st ∧ st.i = (n : Int) + 1 ∧ st.led1 = (n : Int) % 2 := by
  induction n with
  | zero => exact ⟨Indicator.initial, rfl, rfl, rfl⟩
  | succ n ih =>
      obtain ⟨st, hst, hi, hled⟩ := ih (by omega)
      have h0 : 0 ≤ st.i := by omega
      refine ⟨_, by rw [blinkyAfter_succ, hst, Option.some_bind, blinky_of_nonneg _ _ h0],
        ?_, ?_⟩
      · show wrapInt (st.i + 1) = ((n + 1 : Nat) : Int) + 1
        rw [wrapInt_of_inRange _ (by unfold INT_MIN; omega) (by unfold INT_MAX; omega)]
        push_cast
        omega
      · show (if st.led1 = 0 then (1 : Int) else 0) = ((n + 1 : Nat) : Int) % 2
        rw [hled]
        push_cast
        rcases Int.emod_two_eq (n : Int) with h | h
        · rw [if_pos h]; omega
        · rw [if_neg (by omega)]; omega

/-- The invocations that keep the counter in range: invocation number `n + 1`
(for `n < INT_MAX - 1`) uses index `(n + 1) % 2`, posts exactly one `call_in`
with the entry of that index in the table chosen by `connectionActive()` at
that invocation, and leaves the output at `(n + 1) % 2`. -/
theorem blinky_schedule_inRange (dev : Nat → SMDevice) (n : Nat) (hn : n < 2147483646) :
    ∃ before after, blinkyAfter dev n = some before ∧
      blinkyAfter dev (n + 1) = some after ∧
      before.patternIndex = ((n : Int) + 1) % 2 ∧
      after.led1 = ((n : Int) + 1) % 2 ∧
      after.eventQueue = before.eventQueue ++ [QueuedCall.call_in_blinky
        (if ((n : Int) + 1) % 2 = 0 then (if (dev n).connectionActive then 100 else 200)
          else (if (dev n).connectionActive then 900 else 1800))] := by
  obtain ⟨st, hst, hi, _⟩ := blinkyAfter_inRange dev n (by omega)
  obtain ⟨st', hst', _, hled'⟩ := blinkyAfter_inRange dev (n + 1) (by omega)
  have h0 : 0 ≤ st.i := by omega
  have hstep : blinkyAfter dev (n + 1) = blinky (dev n) st := by
    rw [blinkyAfter_succ, hst, Option.some_bind]
  rw [blinky_of_nonneg _ _ h0, hst'] at hstep
  refine ⟨st, st', hst, hst', ?_, ?_, ?_⟩
  · unfold Indicator.patternIndex
    rw [Int.tmod_eq_emod h0 (by decide), hi]
  · rw [hled']; push_cast; rfl
  · rw [Option.some.inj hstep, hi]

theorem blinkyAfter_step (dev : Nat → SMDevice) (n : Nat) (st : Indicator)
    (h : blinkyAfter dev n = some st) : blinkyAfter dev (n + 1) = blinky (dev n) st := by
  rw [blinkyAfter_succ, h, Option.some_bind]

theorem blinky_at_INT_MAX (dev : SMDevice) (s : Indicator) (h : s.i = INT_MAX) :
    ∃ st, blinky dev s = some st ∧ st.i = INT_MIN := by
  rw [blinky_of_nonneg dev s (by rw [h]; decide)]
  refine ⟨_, rfl, ?_⟩
  show wrapInt (s.i + 1) = INT_MIN
  rw [h]
  decide

theorem blinky_at_INT_MIN (dev : SMDevice) (s : Indicator) (h : s.i = INT_MIN) :
    ∃ st, blinky dev s = some st ∧ st.i = INT_MIN + 1 := by
  have hidx : s.patternIndex = 0 := by
    unfold Indicator.patternIndex
    rw [h]
    decide
  have hw : wrapInt (s.i + 1) = INT_MIN + 1 := by
    rw [h]
    decide
  unfold blinky
  rw [hidx, hw]
  by_cases ha : dev.connectionActive = true <;>
    simp [ha, subscript, connected_pattern, idle_pattern]

theorem blinky_of_negative_index (dev : SMDevice) (s : Indicator)
    (h : s.patternIndex = -1) : blinky dev s = none := by
  unfold blinky
  rw [h]
  by_cases ha : dev.connectionActive = true <;> simp [ha, subscript]

/-- C7 at its failing input, 2147483649 successive invocations of `blinky`
(device idle throughout): after 2147483648 invocations the counter has wrapped
to INT_MIN + 1, the index `i % 2` is -1, and invocation 2147483649 reads
outside the two-element table, so it has no defined delay. -/
theorem C7_counter_overflow :
    (∃ st, blinkyAfter (fun _ => bleSecurityManager) 2147483648 = some st ∧
      st.i = INT_MIN + 1 ∧ st.patternIndex = -1) ∧
    blinkyAfter (fun _ => bleSecurityManager) 2147483649 = none := by
  obtain ⟨s0, hs0, hi0, _⟩ :=
    blinkyAfter_inRange (fun _ => bleSecurityManager) 2147483646 (le_refl _)
  have hmax : s0.i = INT_MAX := by rw [hi0]; decide
  obtain ⟨s1, hb1, hi1⟩ := blinky_at_INT_MAX bleSecurityManager s0 hmax
  have h1 : blinkyAfter (fun _ => bleSecurityManager) (2147483646 + 1) = some s1 := by
    rw [blinkyAfter_step _ _ _ hs0]; exact hb1
  obtain ⟨s2, hb2, hi2⟩ := blinky_at_INT_MIN bleSecurityManager s1 hi1
  have h2 : blinkyAfter (fun _ => bleSecurityManager) (2147483646 + 1 + 1) = some s2 := by
    rw [blinkyAfter_step _ _ _ h1]; exact hb2
  have hidx : s2.patternIndex = -1 := by
    unfold Indicator.patternIndex
    rw [hi2]
    decide
  have h3 : blinkyAfter (fun _ => bleSecurityManager) (2147483646 + 1 + 1 + 1) = none := by
    rw [blinkyAfter_step _ _ _ h2]
    exact blinky_of_negative_index _ _ hidx
  exact ⟨⟨s2, h2, hi2, hidx⟩, h3⟩

/-- C10, as stated, fails at the first invocation: from the initial state with
the device idle, `blinky` switches the LED on and schedules the next
invocation after 1800 ms, the second element of `idle_pattern`, not the first
(200 ms). -/
theorem C10_first_invocation :
    blinkyAfter (fun _ => bleSecurityManager) 1
        = some { led1 := LED_ON, i := 2, eventQueue := [QueuedCall.call_in_blinky 1800] } ∧
      idle_pattern[0]? = some 200 ∧ idle_pattern[1]? = some 1800 := by
  decide

/-- C10, amended: from the initial state and with `connectionActive()`
constant, each of the first 2147483646 invocations of `blinky` (those that keep
the counter in range) that switches the LED on schedules the next invocation
after the second pattern element, and each that switches it off schedules the
next after the first element; so the LED is on for 1800 ms and off for 200 ms
while idle, and on for 900 ms and off for 100 ms while connected and secured. -/
theorem C10_led_duty_cycle (dev : Nat → SMDevice) (active : Bool)
    (hconst : ∀ k, (dev k).connectionActive = active) (n : Nat) (hn : n < 2147483646) :
    ∃ before after, blinkyAfter dev n = some before ∧
      blinkyAfter dev (n + 1) = some after ∧
      (after.led1 = LED_ON ∨ after.led1 = LED_OFF) ∧
      (after.led1 = LED_ON → before.led1 = LED_OFF ∧
        (if active then connected_pattern else idle_pattern)[1]?
          = some (if active then 900 else 1800) ∧
        after.eventQueue = before.eventQueue ++
          [QueuedCall.call_in_blinky (if active then 900 else 1800)]) ∧
      (after.led1 = LED_OFF → before.led1 = LED_ON ∧
        (if active then connected_pattern else idle_pattern)[0]?
          = some (if active then 100 else 200) ∧
        after.eventQueue = before.eventQueue ++
          [QueuedCall.call_in_blinky (if active then 100 else 200)]) := by
  obtain ⟨b, a, hb, ha, _, hled, hq⟩ := blinky_schedule_inRange dev n hn
  obtain ⟨b', hb', _, hbled⟩ := blinkyAfter_inRange dev n (by omega)
  rw [hb] at hb'
  have hbb : b = b' := Option.some.inj hb'
  subst hbb
  rw [hconst n] at hq
  have hpat1 : (if active then connected_pattern else idle_pattern)[1]?
      = some (if active then 900 else 1800) := by cases active <;> rfl
  have hpat0 : (if active then connected_pattern else idle_pattern)[0]?
      = some (if active then 100 else 200) := by cases active <;> rfl
  have hON : LED_ON = 1 := rfl
  have hOFF : LED_OFF = 0 := rfl
  refine ⟨b, a, hb, ha, ?_, ?_, ?_⟩
  · rw [hled, hON, hOFF]; omega
  · intro h
    rw [hled, hON] at h
    refine ⟨by rw [hbled, hOFF]; omega, hpat1, ?_⟩
    rw [hq, if_neg (by omega)]
  · intro h
    rw [hled, hOFF] at h
    refine ⟨by rw [hbled, hON]; omega, hpat0, ?_⟩
    rw [hq, if_pos h]

/-- C10, amended, at the first invocation with the device idle throughout. -/
theorem C10_led_duty_cycle_witness :
    (∀ k : Nat, ((fun _ => bleSecurityManager) k : SMDevice).connectionActive = false) ∧
    0 < 2147483646 ∧
    ∃ before after, blinkyAfter (fun _ => bleSecurityManager) 0 = some before ∧
      blinkyAfter (fun _ => bleSecurityManager) (0 + 1) = some after ∧
      (after.led1 = LED_ON ∨ after.led1 = LED_OFF) ∧
      (after.led1 = LED_ON → before.led1 = LED_OFF ∧
        (if false then connected_pattern else idle_pattern)[1]?
          = some (if false then 900 else 1800) ∧
        after.eventQueue = before.eventQueue ++
          [QueuedCall.call_in_blinky (if false then 900 else 1800)]) ∧
      (after.led1 = LED_OFF → before.led1 = LED_ON ∧
        (if false then connected_pattern else idle_pattern)[0]?
          = some (if false then 100 else 200) ∧
        after.eventQueue = before.eventQueue ++
          [QueuedCall.call_in_blinky (if false then 100 else 200)]) :=
  ⟨fun _ => rfl, by decide,
   C10_led_duty_cycle (fun _ => bleSecurityManager) false (fun _ => rfl) 0 (by decide)⟩

/-! ## Properties of `create_filesystem` -/

end WeatherStation
